import Mathlib

/-!
Verification of the middleware-chain HTTP dispatcher specification against the
repository. The dispatcher itself is described by the specification; the
repository contains its callers and worked examples (Express middleware
chains, an Express routing example, a plain-http server). Definitions whose
doc comment starts with `Modelled from the spec:` embed the dispatcher from
the specification text; the remaining definitions embed concrete source
files, named in their doc comments.
-/

namespace MwDispatch

/-- Modelled from the spec: HTTP method enum for entries and request contexts
(spec section 3). -/
inductive Method where
  | GET
  | POST
  | PUT
  | DELETE
  deriving DecidableEq, Repr

/-- Modelled from the spec: a handler-signalled error value (spec sections 3
and 7). It carries a message and a declared status code. -/
structure Err where
  message : String
  status : Nat
  deriving DecidableEq, Repr

/-- Modelled from the spec: the per-request mutable RequestContext (spec
section 3). -/
structure Ctx where
  path : String
  method : Method
  headers : List (String × String)
  attributes : List (String × String)
  responseStarted : Bool
  errorState : Option Err
  deriving DecidableEq, Repr

/-- Modelled from the spec: the control decision a handler takes on one
invocation (spec section 4.1 control-flow contract). `finalize` writes the
response and halts the walk, `proceed` resumes the walk at the next entry,
`proceedErr` resumes the walk and sets the error state. `doubleProceed`
models the contract violation of invoking the continuation twice, and `hang`
models a handler that neither finalizes nor invokes the continuation. -/
inductive Act where
  | finalize (status : Nat) (body : String)
  | proceed
  | proceedErr (e : Err)
  | doubleProceed
  | hang

/-- Modelled from the spec: one mounted Entry (spec section 3). `mountPath`
is the path prefix of the entry (the spec field pathPrefix; the empty string
matches all paths), `method` when present restricts the HTTP method,
`isErrorHandler` marks error handlers. The handler is either a plain
function of the request context (`fnE`, returning the updated attribute list
and a control decision) or a nested sub-dispatcher (`subE`, spec section 4.1
sub-dispatchers). -/
inductive Entry where
  | fnE (mountPath : String) (method : Option Method) (isErrorHandler : Bool)
      (f : Ctx → List (String × String) × Act)
  | subE (mountPath : String) (method : Option Method) (isErrorHandler : Bool)
      (inner : List Entry)

/-- The path prefix of an entry. -/
def Entry.mountPath : Entry → String
  | .fnE p _ _ _ => p
  | .subE p _ _ _ => p

/-- The optional method restriction of an entry. -/
def Entry.method : Entry → Option Method
  | .fnE _ m _ _ => m
  | .subE _ m _ _ => m

/-- Whether an entry is an error handler. -/
def Entry.isErrorHandler : Entry → Bool
  | .fnE _ _ b _ => b
  | .subE _ _ b _ => b

/-- Modelled from the spec: segment-aware path prefix matching (spec section
4.1 rule 4, and section 3: an empty prefix matches all paths). The path must
equal the prefix exactly, or start with the prefix followed by a slash. -/
def segMatch (pre path : String) : Bool :=
  pre == "" || path == pre || List.isPrefixOf (pre.data ++ [ '/' ]) path.data

/-- Modelled from the spec: the per-entry matching rule (spec section 4.1
rules 1 to 4): error-state alignment with the isErrorHandler flag, method
restriction, then segment-aware prefix matching. -/
def entryMatches (e : Entry) (ctx : Ctx) : Bool :=
  (match ctx.errorState with
   | some _ => e.isErrorHandler
   | none => !e.isErrorHandler) &&
  (match e.method with
   | none => true
   | some m => m == ctx.method) &&
  segMatch e.mountPath ctx.path

/-- Modelled from the spec: the residual path a sub-dispatcher receives: the
outer dispatcher strips its own matched prefix before delegating (spec
section 4.1 sub-dispatchers); an empty residue is taken as the root path. -/
def residualPath (pre path : String) : String :=
  let r := path.drop pre.length
  if r == "" then "/" else r

/-- Modelled from the spec: the internal error the dispatcher injects on a
double invocation of the continuation (spec sections 4.1 and 7: contract
violation, converted to a 500-class error state). -/
def doubleDispatchErr : Err := { message := "double dispatch", status := 500 }

/-- Modelled from the spec: the synthetic timeout error injected when a
handler hangs and a deadline is configured (spec sections 5 and 7). -/
def timeoutErr : Err := { message := "deadline exceeded", status := 500 }

/-- Record of one handler invocation during a walk: the position of the entry
in its own dispatcher list, the isErrorHandler flag of the invoked entry, and
whether the error state was set at the moment of invocation. -/
structure Visit where
  pos : Nat
  isErr : Bool
  errAt : Bool
  deriving DecidableEq, Repr

/-- Modelled from the spec: the outcome of a walk (spec section 4.1
termination): `finalized` once a handler finalizes the response, `unhandled`
when the sequence is exhausted without finalization, `pending` when a handler
hangs and no deadline is configured. Each constructor carries the final
request context. -/
inductive WalkResult where
  | finalized (status : Nat) (body : String) (ctx : Ctx)
  | unhandled (ctx : Ctx)
  | pending (ctx : Ctx)
  deriving DecidableEq

/-- The request context carried by a walk outcome. -/
def WalkResult.rctx : WalkResult → Ctx
  | .finalized _ _ c => c
  | .unhandled c => c
  | .pending c => c

/-- Modelled from the spec: the dispatcher walk (spec section 4.1). Walks the
entry list in mount order starting at position `i`, skipping entries that do
not match, invoking matching handlers, and honoring short-circuit, error
diversion, the double-dispatch check, the optional per-request deadline `dl`,
and sub-dispatcher composition (an inner unhandled outcome propagates as a
skip). Errors are never thrown: they travel in the error state of the
context. Returns the outcome and the list of visits in order. -/
def walk (dl : Option Nat) : List Entry → Nat → Ctx → WalkResult × List Visit
  | [], _, ctx => (.unhandled ctx, [])
  | e :: rest, i, ctx =>
    if entryMatches e ctx then
      let v : Visit :=
        { pos := i, isErr := e.isErrorHandler, errAt := ctx.errorState.isSome }
      match e with
      | .fnE _ _ _ f =>
        let ctx1 : Ctx := { ctx with attributes := (f ctx).1 }
        match (f ctx).2 with
        | .finalize s b =>
          (.finalized s b { ctx1 with responseStarted := true }, [v])
        | .proceed =>
          let r := walk dl rest (i + 1) ctx1
          (r.1, v :: r.2)
        | .proceedErr err =>
          let r := walk dl rest (i + 1) { ctx1 with errorState := some err }
          (r.1, v :: r.2)
        | .doubleProceed =>
          let ctx2 : Ctx :=
            match ctx1.errorState with
            | none => { ctx1 with errorState := some doubleDispatchErr }
            | some _ => ctx1
          let r := walk dl rest (i + 1) ctx2
          (r.1, v :: r.2)
        | .hang =>
          match dl with
          | none => (.pending ctx1, [v])
          | some _ =>
            match ctx1.errorState with
            | none =>
              let r := walk dl rest (i + 1) { ctx1 with errorState := some timeoutErr }
              (r.1, v :: r.2)
            | some _ => (.unhandled ctx1, [v])
      | .subE pre _ _ inner =>
        match walk dl inner 0 { ctx with path := residualPath pre ctx.path } with
        | (.finalized s b c, _) => (.finalized s b c, [v])
        | (.pending c, _) => (.pending c, [v])
        | (.unhandled c, _) =>
          let r := walk dl rest (i + 1) { c with path := ctx.path }
          (r.1, v :: r.2)
    else
      walk dl rest (i + 1) ctx
termination_by l => sizeOf l
decreasing_by all_goals (simp_wf <;> omega)

/-- Modelled from the spec: `dispatch` runs the walk over the whole mounted
sequence from position 0 (spec section 4.1 public contract). -/
def dispatch (dl : Option Nat) (es : List Entry) (ctx : Ctx) : WalkResult :=
  (walk dl es 0 ctx).1

/-- Modelled from the spec: the default response policy of the HTTP boundary
(spec sections 4.1 termination and 7): a finalized response passes through;
an unhandled walk maps to a default 404 when no error state is set and to a
500 when it is. A pending walk never reaches the boundary; it is mapped to
500 here. -/
def boundary : WalkResult → Nat × String
  | .finalized s b _ => (s, b)
  | .unhandled c =>
    match c.errorState with
    | none => (404, "Not Found")
    | some _ => (500, "Internal Server Error")
  | .pending _ => (500, "Internal Server Error")

/-- One unfolding step: the empty sequence is exhausted at once. -/
theorem walk_nil (dl : Option Nat) (i : Nat) (ctx : Ctx) :
    walk dl [] i ctx = (.unhandled ctx, []) := by
  simp [walk]

/-- One unfolding step: a non-matching entry is skipped. -/
theorem walk_skip (dl : Option Nat) (e : Entry) (rest : List Entry) (i : Nat)
    (ctx : Ctx) (h : entryMatches e ctx = false) :
    walk dl (e :: rest) i ctx = walk dl rest (i + 1) ctx := by
  simp [walk, h]

/-- One unfolding step: a matching handler that finalizes halts the walk. -/
theorem walk_fn_finalize (dl : Option Nat) (p : String) (m : Option Method)
    (b : Bool) (f : Ctx → List (String × String) × Act) (rest : List Entry)
    (i : Nat) (ctx : Ctx) (s : Nat) (bd : String)
    (h : entryMatches (.fnE p m b f) ctx = true)
    (hf : (f ctx).2 = .finalize s bd) :
    walk dl (.fnE p m b f :: rest) i ctx =
      (.finalized s bd
        { ctx with attributes := (f ctx).1, responseStarted := true },
       [{ pos := i, isErr := b, errAt := ctx.errorState.isSome }]) := by
  simp [walk, h, hf, Entry.isErrorHandler]

/-- One unfolding step: a matching handler that proceeds resumes the walk at
the next entry with the updated attributes. -/
theorem walk_fn_proceed (dl : Option Nat) (p : String) (m : Option Method)
    (b : Bool) (f : Ctx → List (String × String) × Act) (rest : List Entry)
    (i : Nat) (ctx : Ctx)
    (h : entryMatches (.fnE p m b f) ctx = true)
    (hf : (f ctx).2 = .proceed) :
    walk dl (.fnE p m b f :: rest) i ctx =
      ((walk dl rest (i + 1) { ctx with attributes := (f ctx).1 }).1,
       { pos := i, isErr := b, errAt := ctx.errorState.isSome } ::
         (walk dl rest (i + 1) { ctx with attributes := (f ctx).1 }).2) := by
  simp [walk, h, hf, Entry.isErrorHandler]

/-- One unfolding step: a matching handler that proceeds with an error resumes
the walk with the error state set to that error. -/
theorem walk_fn_proceedErr (dl : Option Nat) (p : String) (m : Option Method)
    (b : Bool) (f : Ctx → List (String × String) × Act) (rest : List Entry)
    (i : Nat) (ctx : Ctx) (err : Err)
    (h : entryMatches (.fnE p m b f) ctx = true)
    (hf : (f ctx).2 = .proceedErr err) :
    walk dl (.fnE p m b f :: rest) i ctx =
      ((walk dl rest (i + 1)
          { ctx with attributes := (f ctx).1, errorState := some err }).1,
       { pos := i, isErr := b, errAt := ctx.errorState.isSome } ::
         (walk dl rest (i + 1)
           { ctx with attributes := (f ctx).1, errorState := some err }).2) := by
  simp [walk, h, hf, Entry.isErrorHandler]

/-- One unfolding step: a double invocation of the continuation while no error
state is set is converted to the internal double-dispatch error state, and the
walk of the remaining entries continues exactly once. -/
theorem walk_fn_double (dl : Option Nat) (p : String) (m : Option Method)
    (b : Bool) (f : Ctx → List (String × String) × Act) (rest : List Entry)
    (i : Nat) (ctx : Ctx)
    (h : entryMatches (.fnE p m b f) ctx = true)
    (hf : (f ctx).2 = .doubleProceed)
    (he : ctx.errorState = none) :
    walk dl (.fnE p m b f :: rest) i ctx =
      ((walk dl rest (i + 1)
          { ctx with attributes := (f ctx).1,
                     errorState := some doubleDispatchErr }).1,
       { pos := i, isErr := b, errAt := false } ::
         (walk dl rest (i + 1)
           { ctx with attributes := (f ctx).1,
                      errorState := some doubleDispatchErr }).2) := by
  simp [walk, h, hf, he, Entry.isErrorHandler]

/-- One unfolding step: a hanging handler with no configured deadline leaves
the dispatch pending. -/
theorem walk_fn_hang_noDeadline (p : String) (m : Option Method) (b : Bool)
    (f : Ctx → List (String × String) × Act) (rest : List Entry) (i : Nat)
    (ctx : Ctx)
    (h : entryMatches (.fnE p m b f) ctx = true)
    (hf : (f ctx).2 = .hang) :
    walk none (.fnE p m b f :: rest) i ctx =
      (.pending { ctx with attributes := (f ctx).1 },
       [{ pos := i, isErr := b, errAt := ctx.errorState.isSome }]) := by
  simp [walk, h, hf, Entry.isErrorHandler]

/-- One unfolding step: a hanging handler with a configured deadline and no
error state yet is resolved by injecting the synthetic timeout error state
and continuing the walk, exactly once, through the remaining entries (on
which only error handlers can now match). -/
theorem walk_fn_hang_deadline (d : Nat) (p : String) (m : Option Method)
    (b : Bool) (f : Ctx → List (String × String) × Act) (rest : List Entry)
    (i : Nat) (ctx : Ctx)
    (h : entryMatches (.fnE p m b f) ctx = true)
    (hf : (f ctx).2 = .hang)
    (he : ctx.errorState = none) :
    walk (some d) (.fnE p m b f :: rest) i ctx =
      ((walk (some d) rest (i + 1)
          { ctx with attributes := (f ctx).1,
                     errorState := some timeoutErr }).1,
       { pos := i, isErr := b, errAt := false } ::
         (walk (some d) rest (i + 1)
           { ctx with attributes := (f ctx).1,
                      errorState := some timeoutErr }).2) := by
  simp [walk, h, hf, he, Entry.isErrorHandler]

/-- One unfolding step: a matching sub-dispatcher whose inner walk finalizes
propagates the finalized outcome. -/
theorem walk_sub_finalized (dl : Option Nat) (p : String) (m : Option Method)
    (b : Bool) (inner rest : List Entry) (i : Nat) (ctx : Ctx) (s : Nat)
    (bd : String) (c : Ctx) (t : List Visit)
    (h : entryMatches (.subE p m b inner) ctx = true)
    (hw : walk dl inner 0 { ctx with path := residualPath p ctx.path } =
      (.finalized s bd c, t)) :
    walk dl (.subE p m b inner :: rest) i ctx =
      (.finalized s bd c,
       [{ pos := i, isErr := b, errAt := ctx.errorState.isSome }]) := by
  simp [walk, h, hw, Entry.isErrorHandler]

/-- One unfolding step: a matching sub-dispatcher whose inner walk is
unhandled propagates as a skip: the outer walk continues with the subsequent
entries and the original path restored. -/
theorem walk_sub_unhandled (dl : Option Nat) (p : String) (m : Option Method)
    (b : Bool) (inner rest : List Entry) (i : Nat) (ctx : Ctx) (c : Ctx)
    (t : List Visit)
    (h : entryMatches (.subE p m b inner) ctx = true)
    (hw : walk dl inner 0 { ctx with path := residualPath p ctx.path } =
      (.unhandled c, t)) :
    walk dl (.subE p m b inner :: rest) i ctx =
      ((walk dl rest (i + 1) { c with path := ctx.path }).1,
       { pos := i, isErr := b, errAt := ctx.errorState.isSome } ::
         (walk dl rest (i + 1) { c with path := ctx.path }).2) := by
  simp [walk, h, hw, Entry.isErrorHandler]

/-- If an entry matches, the error state presence agrees with the
isErrorHandler flag of the entry (spec section 4.1 rules 1 and 2). -/
theorem entryMatches_errAlign (e : Entry) (ctx : Ctx)
    (h : entryMatches e ctx = true) : ctx.errorState.isSome = e.isErrorHandler := by
  cases he : ctx.errorState <;>
    simp [entryMatches, he, Bool.and_eq_true] at h ⊢ <;> simp [h.1]

/-- The positions of the visits of a walk form a sublist of the positions of
the mounted entries in mount order: the walk visits entries strictly in mount
order, each at most once, with no reordering. -/
theorem walk_visits_sublist (dl : Option Nat) (es : List Entry) (i : Nat) (ctx : Ctx) :
    List.Sublist ((walk dl es i ctx).2.map Visit.pos) (List.range' i es.length) := by
  induction es, i, ctx using walk.induct dl with
  | case1 i ctx => simp [walk]
  | case2 rest i ctx p m b f s bd hf h =>
    rw [walk_fn_finalize dl p m b f rest i ctx s bd h hf]
    simp [List.range'_succ]
  | case3 rest i ctx p m b f c1 hf h ih =>
    rw [walk_fn_proceed dl p m b f rest i ctx h hf]
    simpa [List.range'_succ] using List.Sublist.cons₂ i ih
  | case4 rest i ctx p m b f c1 err hf h ih =>
    rw [walk_fn_proceedErr dl p m b f rest i ctx err h hf]
    simpa [List.range'_succ] using List.Sublist.cons₂ i ih
  | case5 rest i ctx p m b f c1 hf c2 h ih =>
    rw [walk]
    simp only [h, hf, if_true]
    simpa [List.range'_succ] using List.Sublist.cons₂ i ih
  | case6 rest i ctx p m b f hf hdl h =>
    subst hdl
    rw [walk_fn_hang_noDeadline p m b f rest i ctx h hf]
    simp [List.range'_succ]
  | case7 rest i ctx p m b f c1 hf d hdl he h ih =>
    subst hdl
    rw [walk_fn_hang_deadline d p m b f rest i ctx h hf he]
    simpa [List.range'_succ] using List.Sublist.cons₂ i ih
  | case8 rest i ctx p m b f c1 hf d hdl err he h =>
    subst hdl
    have he2 : ctx.errorState = some err := he
    rw [walk]
    simp only [h, hf, he2, if_true]
    simp [List.range'_succ]
  | case9 rest i ctx p m b inner s bd c t hw h ihInner =>
    rw [walk_sub_finalized dl p m b inner rest i ctx s bd c t h hw]
    simp [List.range'_succ]
  | case10 rest i ctx p m b inner c t hw h ihInner =>
    rw [walk]
    simp only [h, hw, if_true]
    simp [List.range'_succ]
  | case11 rest i ctx p m b inner c t hw h ihInner ih =>
    rw [walk_sub_unhandled dl p m b inner rest i ctx c t h hw]
    simpa [List.range'_succ] using List.Sublist.cons₂ i ih
  | case12 e rest i ctx h ih =>
    rw [walk_skip dl e rest i ctx (by simpa using h)]
    exact (List.range'_succ i rest.length 1) ▸ List.Sublist.cons i ih

/-- Every visit of a walk was made with the error-state presence equal to the
isErrorHandler flag of the invoked entry: normal handlers never observe an
error state, and error handlers are invoked only under an error state. -/
theorem walk_visit_errAlign (dl : Option Nat) (es : List Entry) (i : Nat)
    (ctx : Ctx) : ∀ v ∈ (walk dl es i ctx).2, v.errAt = v.isErr := by
  induction es, i, ctx using walk.induct dl with
  | case1 i ctx => simp [walk]
  | case2 rest i ctx p m b f s bd hf h =>
    rw [walk_fn_finalize dl p m b f rest i ctx s bd h hf]
    have hb := entryMatches_errAlign _ _ h
    simp [Entry.isErrorHandler] at hb
    simp [Entry.isErrorHandler, hb]
  | case3 rest i ctx p m b f c1 hf h ih =>
    rw [walk_fn_proceed dl p m b f rest i ctx h hf]
    have hb := entryMatches_errAlign _ _ h
    simp [Entry.isErrorHandler] at hb
    intro v hv
    rcases List.mem_cons.mp hv with rfl | hv2
    · simp [Entry.isErrorHandler, hb]
    · exact ih v hv2
  | case4 rest i ctx p m b f c1 err hf h ih =>
    rw [walk_fn_proceedErr dl p m b f rest i ctx err h hf]
    have hb := entryMatches_errAlign _ _ h
    simp [Entry.isErrorHandler] at hb
    intro v hv
    rcases List.mem_cons.mp hv with rfl | hv2
    · simp [Entry.isErrorHandler, hb]
    · exact ih v hv2
  | case5 rest i ctx p m b f c1 hf c2 h ih =>
    rw [walk]
    simp only [h, hf, if_true]
    have hb := entryMatches_errAlign _ _ h
    simp [Entry.isErrorHandler] at hb
    intro v hv
    rcases List.mem_cons.mp hv with rfl | hv2
    · simp [Entry.isErrorHandler, hb]
    · exact ih v hv2
  | case6 rest i ctx p m b f hf hdl h =>
    subst hdl
    rw [walk_fn_hang_noDeadline p m b f rest i ctx h hf]
    have hb := entryMatches_errAlign _ _ h
    simp [Entry.isErrorHandler] at hb
    simp [Entry.isErrorHandler, hb]
  | case7 rest i ctx p m b f c1 hf d hdl he h ih =>
    subst hdl
    have he2 : ctx.errorState = none := he
    rw [walk_fn_hang_deadline d p m b f rest i ctx h hf he2]
    have hb := entryMatches_errAlign _ _ h
    simp [Entry.isErrorHandler, he2] at hb
    intro v hv
    rcases List.mem_cons.mp hv with rfl | hv2
    · simp [Entry.isErrorHandler, hb]
    · exact ih v hv2
  | case8 rest i ctx p m b f c1 hf d hdl err he h =>
    subst hdl
    have he2 : ctx.errorState = some err := he
    rw [walk]
    simp only [h, hf, he2, if_true]
    have hb2 : b = true := by
      simpa [he2, Entry.isErrorHandler] using (entryMatches_errAlign _ _ h).symm
    simp [Entry.isErrorHandler, he2, hb2]
  | case9 rest i ctx p m b inner s bd c t hw h ihInner =>
    rw [walk_sub_finalized dl p m b inner rest i ctx s bd c t h hw]
    have hb := entryMatches_errAlign _ _ h
    simp [Entry.isErrorHandler] at hb
    simp [Entry.isErrorHandler, hb]
  | case10 rest i ctx p m b inner c t hw h ihInner =>
    rw [walk]
    simp only [h, hw, if_true]
    have hb := entryMatches_errAlign _ _ h
    simp [Entry.isErrorHandler] at hb
    simp [Entry.isErrorHandler, hb]
  | case11 rest i ctx p m b inner c t hw h ihInner ih =>
    rw [walk_sub_unhandled dl p m b inner rest i ctx c t h hw]
    have hb := entryMatches_errAlign _ _ h
    simp [Entry.isErrorHandler] at hb
    intro v hv
    rcases List.mem_cons.mp hv with rfl | hv2
    · simp [Entry.isErrorHandler, hb]
    · exact ih v hv2
  | case12 e rest i ctx h ih =>
    rw [walk_skip dl e rest i ctx (by simpa using h)]
    exact ih

/-- The error state is never cleared: if it is set when a walk starts, it is
still set in the context carried by the walk outcome. -/
theorem walk_errorState_mono (dl : Option Nat) (es : List Entry) (i : Nat)
    (ctx : Ctx) (hs : ctx.errorState.isSome = true) :
    (walk dl es i ctx).1.rctx.errorState.isSome = true := by
  induction es, i, ctx using walk.induct dl with
  | case1 i ctx => simpa [walk, WalkResult.rctx] using hs
  | case2 rest i ctx p m b f s bd hf h =>
    rw [walk_fn_finalize dl p m b f rest i ctx s bd h hf]
    simpa [WalkResult.rctx] using hs
  | case3 rest i ctx p m b f c1 hf h ih =>
    rw [walk_fn_proceed dl p m b f rest i ctx h hf]
    exact ih hs
  | case4 rest i ctx p m b f c1 err hf h ih =>
    rw [walk_fn_proceedErr dl p m b f rest i ctx err h hf]
    exact ih rfl
  | case5 rest i ctx p m b f c1 hf c2 h ih =>
    obtain ⟨e0, he⟩ := Option.isSome_iff_exists.mp hs
    have he1 : c1.errorState = some e0 := he
    have hc : c2 = c1 := by
      show (match c1.errorState with
            | none => { c1 with errorState := some doubleDispatchErr }
            | some _ => c1) = c1
      rw [he1]
    rw [walk]
    simp only [h, hf, if_true]
    show (walk dl rest (i + 1) c2).1.rctx.errorState.isSome = true
    exact ih (by rw [hc]; exact hs)
  | case6 rest i ctx p m b f hf hdl h =>
    subst hdl
    rw [walk_fn_hang_noDeadline p m b f rest i ctx h hf]
    simpa [WalkResult.rctx] using hs
  | case7 rest i ctx p m b f c1 hf d hdl he h ih =>
    have he2 : ctx.errorState = none := he
    rw [he2] at hs; simp at hs
  | case8 rest i ctx p m b f c1 hf d hdl err he h =>
    subst hdl
    have he2 : ctx.errorState = some err := he
    rw [walk]
    simp only [h, hf, he2, if_true]
    simp [WalkResult.rctx]
  | case9 rest i ctx p m b inner s bd c t hw h ihInner =>
    rw [walk_sub_finalized dl p m b inner rest i ctx s bd c t h hw]
    have := ihInner (by simpa)
    rw [hw] at this
    simpa [WalkResult.rctx] using this
  | case10 rest i ctx p m b inner c t hw h ihInner =>
    rw [walk]
    simp only [h, hw, if_true]
    have := ihInner (by simpa)
    rw [hw] at this
    simpa [WalkResult.rctx] using this
  | case11 rest i ctx p m b inner c t hw h ihInner ih =>
    rw [walk_sub_unhandled dl p m b inner rest i ctx c t h hw]
    have hc := ihInner (by simpa)
    rw [hw] at hc
    simp [WalkResult.rctx] at hc
    exact ih (by simpa using hc)
  | case12 e rest i ctx h ih =>
    rw [walk_skip dl e rest i ctx (by simpa using h)]
    exact ih hs

/-- Characterization of segment-aware prefix matching: the prefix matches the
path exactly when the prefix is empty, the path equals the prefix, or the
path extends the prefix at a segment boundary (prefix, slash, remainder). -/
theorem segMatch_iff (pre path : String) :
    segMatch pre path = true ↔
      (pre = "" ∨ path = pre ∨ ∃ rest : String, path = pre ++ "/" ++ rest) := by
  constructor
  · intro h
    simp only [segMatch, Bool.or_eq_true, beq_iff_eq] at h
    rcases h with (h | h) | h
    · exact Or.inl h
    · exact Or.inr (Or.inl h)
    · refine Or.inr (Or.inr ?_)
      rcases ( List.isPrefixOf_iff_prefix.mp h : _ <+: _) with ⟨t, ht⟩
      refine ⟨⟨t⟩, String.ext ?_⟩
      rw [← ht]
      simp
  · intro h
    simp only [segMatch, Bool.or_eq_true, beq_iff_eq]
    rcases h with h | h | ⟨rest, h⟩
    · exact Or.inl (Or.inl h)
    · exact Or.inl (Or.inr h)
    · refine Or.inr ?_
      rw [ List.isPrefixOf_iff_prefix]
      exact ⟨rest.data, by rw [h]; simp⟩

/-- No entry of the sequence matches the request: the walk skips everything
and is exhausted with the context unchanged and an empty visit list. This is
the per-request no-route-matched case of the exhaustion rule (spec section
4.1 termination); it holds regardless of what the handlers would do on other
requests. -/
theorem walk_of_no_match (dl : Option Nat) :
    ∀ (es : List Entry) (i : Nat) (ctx : Ctx),
      (∀ e ∈ es, entryMatches e ctx = false) →
      walk dl es i ctx = (.unhandled ctx, []) := by
  intro es
  induction es with
  | nil => intro i ctx _; simp [walk]
  | cons e rest ih =>
    intro i ctx h
    rw [walk_skip dl e rest i ctx (h e (by simp))]
    exact ih (i + 1) ctx (fun e2 he2 => h e2 (by simp [he2]))

/-- Modelled from the spec: the per-request hypothesis of the exhaustion rule
(spec section 4.1 termination), as observed on this very walk: every entry
that matches the context it is reached with invokes the continuation on that
context (with or without an error), and a matching sub-dispatcher comes back
unhandled. Handlers remain free to finalize on other requests. -/
def proceededOn (dl : Option Nat) : List Entry → Ctx → Bool
  | [], _ => true
  | e :: rest, ctx =>
    if entryMatches e ctx then
      match e with
      | .fnE _ _ _ f =>
        match (f ctx).2 with
        | .proceed => proceededOn dl rest { ctx with attributes := (f ctx).1 }
        | .proceedErr err =>
          proceededOn dl rest
            { ctx with attributes := (f ctx).1, errorState := some err }
        | _ => false
      | .subE pre _ _ inner =>
        match walk dl inner 0 { ctx with path := residualPath pre ctx.path } with
        | (.unhandled c, _) => proceededOn dl rest { c with path := ctx.path }
        | _ => false
    else proceededOn dl rest ctx
termination_by l _ => sizeOf l
decreasing_by all_goals simp_wf

/-- One unfolding step of `proceededOn`: a non-matching entry is skipped. -/
theorem proceededOn_skip (dl : Option Nat) (e : Entry) (rest : List Entry)
    (ctx : Ctx) (h : entryMatches e ctx = false) :
    proceededOn dl (e :: rest) ctx = proceededOn dl rest ctx := by
  rw [proceededOn.eq_def]
  simp [h]

/-- Exhaustion: if on this request every matching handler invoked the
continuation, the walk returns an unhandled outcome (spec section 4.1
termination). -/
theorem walk_proceededOn_unhandled (dl : Option Nat) (es : List Entry)
    (i : Nat) (ctx : Ctx) (hp : proceededOn dl es ctx = true) :
    ∃ c, (walk dl es i ctx).1 = .unhandled c := by
  induction es, i, ctx using walk.induct dl with
  | case1 i ctx => exact ⟨ctx, by simp [walk]⟩
  | case2 rest i ctx p m b f s bd hf h =>
    rw [proceededOn.eq_def] at hp
    simp [h, hf] at hp
  | case3 rest i ctx p m b f c1 hf h ih =>
    rw [walk_fn_proceed dl p m b f rest i ctx h hf]
    rw [proceededOn.eq_def] at hp
    simp only [h, hf, if_true] at hp
    exact ih hp
  | case4 rest i ctx p m b f c1 err hf h ih =>
    rw [walk_fn_proceedErr dl p m b f rest i ctx err h hf]
    rw [proceededOn.eq_def] at hp
    simp only [h, hf, if_true] at hp
    exact ih hp
  | case5 rest i ctx p m b f c1 hf c2 h ih =>
    rw [proceededOn.eq_def] at hp
    simp [h, hf] at hp
  | case6 rest i ctx p m b f hf hdl h =>
    rw [proceededOn.eq_def] at hp
    simp [h, hf] at hp
  | case7 rest i ctx p m b f c1 hf d hdl he h ih =>
    rw [proceededOn.eq_def] at hp
    simp [h, hf] at hp
  | case8 rest i ctx p m b f c1 hf d hdl err he h =>
    rw [proceededOn.eq_def] at hp
    simp [h, hf] at hp
  | case9 rest i ctx p m b inner s bd c t hw h ihInner =>
    rw [proceededOn.eq_def] at hp
    simp [h, hw] at hp
  | case10 rest i ctx p m b inner c t hw h ihInner =>
    rw [proceededOn.eq_def] at hp
    simp [h, hw] at hp
  | case11 rest i ctx p m b inner c t hw h ihInner ih =>
    rw [walk_sub_unhandled dl p m b inner rest i ctx c t h hw]
    rw [proceededOn.eq_def] at hp
    simp only [h, hw, if_true] at hp
    exact ih hp
  | case12 e rest i ctx h ih =>
    rw [walk_skip dl e rest i ctx (by simpa using h)]
    rw [proceededOn_skip dl e rest ctx (by simpa using h)] at hp
    exact ih hp

/-- A fresh GET request context with the given path and headers (spec
section 3 lifecycle: created fresh for each incoming request). -/
def mkCtx (pathArg : String) (hs : List (String × String)) : Ctx :=
  { path := pathArg, method := .GET, headers := hs, attributes := [],
    responseStarted := false, errorState := none }

/-- A recording middleware as in the request-lifecycle example of
src/unnamed/part_000: mounted on all paths and methods, it records its name
in the context attributes and proceeds (the recording handler of spec
section 8). -/
def recFn (n : String) : Ctx → List (String × String) × Act :=
  fun c => (c.attributes ++ [(n, "visited")], .proceed)

/-- The recording middleware entry built from `recFn`. -/
def recordingEntry (n : String) : Entry := .fnE "" none false (recFn n)

/-- Logger middleware of the end-to-end scenario (the logger of
src/unnamed/part_008): all paths, any method, records and proceeds. -/
def loggerE : Entry := recordingEntry "logger"

/-- Body-parsing middleware of the end-to-end scenario (express.json in the
examples of src/unnamed/part_000): all paths, any method, proceeds. -/
def jsonBodyParserE : Entry := recordingEntry "jsonBodyParser"

/-- Auth middleware of the end-to-end scenario, mounted under the /api
prefix for any method: with the valid token of src/unnamed/part_008 it
proceeds, otherwise it finalizes 403 Forbidden. -/
def authFn : Ctx → List (String × String) × Act := fun c =>
  if c.headers.lookup "authorization" == some "mysecrettoken" then
    (c.attributes ++ [("auth", "ok")], .proceed)
  else
    (c.attributes, .finalize 403 "Forbidden")

/-- The auth middleware entry built from `authFn`. -/
def authE : Entry := .fnE "/api" none false authFn

/-- The GET /api/users route of the end-to-end scenario: finalizes 200. -/
def usersFn : Ctx → List (String × String) × Act :=
  fun c => (c.attributes ++ [("route", "hit")], .finalize 200 "users")

/-- The GET /api/users route entry built from `usersFn`. -/
def usersRouteE : Entry := .fnE "/api/users" (some .GET) false usersFn

/-- The mount order of the end-to-end scenario of spec section 8. -/
def scenarioEntries : List Entry := [loggerE, jsonBodyParserE, authE, usersRouteE]

/-- The authorized request of the end-to-end scenario. -/
def c8auth0 : Ctx := mkCtx "/api/users" [("authorization", "mysecrettoken")]

/-- The authorized request context after the logger ran. -/
def c8auth1 : Ctx := { c8auth0 with attributes := [("logger", "visited")] }

/-- The authorized request context after the body parser ran. -/
def c8auth2 : Ctx :=
  { c8auth0 with attributes := [("logger", "visited"), ("jsonBodyParser", "visited")] }

/-- The authorized request context after the auth middleware ran. -/
def c8auth3 : Ctx :=
  { c8auth0 with attributes :=
      [("logger", "visited"), ("jsonBodyParser", "visited"), ("auth", "ok")] }

/-- The final context of the authorized walk, after the route finalized. -/
def c8fin : Ctx :=
  { c8auth0 with
    attributes := [("logger", "visited"), ("jsonBodyParser", "visited"),
      ("auth", "ok"), ("route", "hit")],
    responseStarted := true }

/-- The request of the end-to-end scenario without the auth header. -/
def c8anon0 : Ctx := mkCtx "/api/users" []

/-- The anonymous request context after the logger ran. -/
def c8anon1 : Ctx := { c8anon0 with attributes := [("logger", "visited")] }

/-- The anonymous request context after the body parser ran. -/
def c8anon2 : Ctx :=
  { c8anon0 with attributes := [("logger", "visited"), ("jsonBodyParser", "visited")] }

/-- The final context of the anonymous walk, after auth finalized 403. -/
def c8anonFin : Ctx :=
  { c8anon0 with
    attributes := [("logger", "visited"), ("jsonBodyParser", "visited")],
    responseStarted := true }

/-- Sub-dispatcher B of the composition scenario, mounted under /api: its
only entry is mounted at /users and so does not match the residual ghost
path (spec section 8 sub-dispatcher composition). -/
def subB : Entry :=
  .subE "/api" none false
    [.fnE "/users" none false (fun c => (c.attributes, .finalize 200 "users list"))]

/-- handlerX of the composition scenario, mounted at /api/ghost. -/
def handlerX : Entry :=
  .fnE "/api/ghost" none false (fun c => (c.attributes, .finalize 200 "ghost"))

/-- Dispatcher A of the composition scenario: B under /api, then handlerX. -/
def composeA : List Entry := [subB, handlerX]

/-- An error-handling entry as in the error-handling middleware of
src/unnamed/part_000: declared as an error handler, it renders the current
error state with its declared status. -/
def errHandlerE : Entry :=
  .fnE "" none true (fun c =>
    match c.errorState with
    | some e => (c.attributes, .finalize e.status e.message)
    | none => (c.attributes, .proceed))

/-- A failing middleware: signals an error through the continuation, as in
the next(error) example of src/unnamed/part_000. -/
def failingE : Entry :=
  .fnE "" none false
    (fun c => (c.attributes, .proceedErr { message := "boom", status := 500 }))

/-- The characters of a string, lowercased. -/
def lowerData (s : String) : List Char := s.data.map Char.toLower

/-- Route matching of the default Express router for a literal route path:
matching is case-insensitive and tolerates a single trailing slash, because
app.get routes are compiled by path-to-regexp with the router defaults
caseSensitive false and strict false. -/
def expressRouteMatch (route url : String) : Bool :=
  lowerData url == lowerData route || lowerData url == lowerData route ++ [ '/' ]

/-- Embeds src/UNIT2/express-project/routing.js: GET routes for the root,
about and home paths, matched with the default Express route matching of
`expressRouteMatch`, then a final catch-all app.use that sends the body
"Page Not Found!". res.send with no preceding res.status call sends HTTP
status 200, so the catch-all answers with status 200. -/
def routingRespond (m : Method) (url : String) : Nat × String :=
  if m == .GET && expressRouteMatch "/" url then (200, "Hello World!")
  else if m == .GET && expressRouteMatch "/about" url then (200, "Your are on about")
  else if m == .GET && expressRouteMatch "/home" url then (200, "Home page ")
  else (200, "Page Not Found!")

/-- Embeds the second server of src/unnamed/part_006: a plain
http.createServer callback dispatching on exact string equality of req.url,
with a 404 fallback branch. -/
def plainHttpRespond (url : String) : Nat × String :=
  if url == "/home" then (200, "Welcome to the Home Page!\n")
  else if url == "/about" then (200, "This is the About Page.\n")
  else (404, "Page not found.\n")

/-- C1: dispatch invokes matching entries strictly in mount order, with no
reordering by specificity, method, or prefix length: for every deadline,
entry sequence, start position and request context, the visit positions form
a sublist of the mount positions taken in mount order; and reordering mounts
observably changes the visit order: two recording middlewares mounted in the
two orders produce oppositely ordered attribute records. -/
theorem claim_C1 :
    (∀ (dl : Option Nat) (es : List Entry) (i : Nat) (ctx : Ctx),
      List.Sublist ((walk dl es i ctx).2.map Visit.pos) (List.range' i es.length)) ∧
    (walk none [recordingEntry "A", recordingEntry "B"] 0 (mkCtx "/" [])).1.rctx.attributes
        = [("A", "visited"), ("B", "visited")] ∧
    (walk none [recordingEntry "B", recordingEntry "A"] 0 (mkCtx "/" [])).1.rctx.attributes
        = [("B", "visited"), ("A", "visited")] ∧
    (walk none [recordingEntry "A", recordingEntry "B"] 0 (mkCtx "/" [])).1.rctx.attributes
        ≠ (walk none [recordingEntry "B", recordingEntry "A"] 0 (mkCtx "/" [])).1.rctx.attributes := by
  refine ⟨walk_visits_sublist, ?_, ?_, ?_⟩ <;>
    simp [walk, recordingEntry, recFn, mkCtx, entryMatches, segMatch,
      WalkResult.rctx, Entry.isErrorHandler, Entry.method, Entry.mountPath]

/-- C2: error diversion. Every handler invocation of every walk happens with
the error-state presence equal to the isErrorHandler flag of the invoked
entry: after the error state is set by the entry at position i, no later
normal entry is invoked, a normal handler never observes an error state, and
an error handler is invoked only when an error state exists — so an error
handler mounted before the failing entry never sees the error. The error is
carried in the context and never thrown: once set, it persists into the walk
outcome. -/
theorem claim_C2 :
    (∀ (dl : Option Nat) (es : List Entry) (i : Nat) (ctx : Ctx),
      ∀ v ∈ (walk dl es i ctx).2, v.errAt = v.isErr) ∧
    (∀ (dl : Option Nat) (es : List Entry) (i : Nat) (ctx : Ctx),
      ctx.errorState.isSome = true →
      (walk dl es i ctx).1.rctx.errorState.isSome = true) :=
  ⟨walk_visit_errAlign, walk_errorState_mono⟩

/-- Witness for C2 at a concrete walk: a failing middleware followed by an
error handler; the error handler is visited under the error state, and the
error state persists into the outcome of a walk that starts with one. -/
theorem claim_C2_witness :
    Visit.errAt { pos := 1, isErr := true, errAt := true }
      = Visit.isErr { pos := 1, isErr := true, errAt := true } ∧
    (walk none [errHandlerE] 0
      { mkCtx "/" [] with errorState := some doubleDispatchErr }).1.rctx.errorState.isSome
      = true := by
  constructor
  · refine claim_C2.1 none [failingE, errHandlerE] 0 (mkCtx "/" [])
      { pos := 1, isErr := true, errAt := true } ?_
    simp [walk, failingE, errHandlerE, mkCtx, entryMatches, segMatch,
      Entry.isErrorHandler, Entry.method, Entry.mountPath, doubleDispatchErr]
  · exact claim_C2.2 none [errHandlerE] 0
      { mkCtx "/" [] with errorState := some doubleDispatchErr } (by simp [mkCtx])

/-- C3: an entry matches only if its path prefix is a prefix of the request
path ending at a path-segment boundary (empty prefix, exact equality, or
prefix followed by a slash); prefix /admin matches /admin (exact equality)
and /admin/x but does not match /administrator. -/
theorem claim_C3 :
    (∀ (e : Entry) (ctx : Ctx), entryMatches e ctx = true →
      (e.mountPath = "" ∨ ctx.path = e.mountPath ∨
        ∃ rest : String, ctx.path = e.mountPath ++ "/" ++ rest)) ∧
    segMatch "/admin" "/admin" = true ∧
    segMatch "/admin" "/admin/x" = true ∧
    segMatch "/admin" "/administrator" = false := by
  refine ⟨?_, by decide, by decide, by decide⟩
  intro e ctx h
  simp only [entryMatches, Bool.and_eq_true] at h
  exact (segMatch_iff e.mountPath ctx.path).mp h.2

/-- Witness for C3: handlerX mounted at /api/ghost matches the request for
exactly that path, and the characterization holds there. -/
theorem claim_C3_witness :
    handlerX.mountPath = "" ∨ (mkCtx "/api/ghost" []).path = handlerX.mountPath ∨
      ∃ rest : String, (mkCtx "/api/ghost" []).path = handlerX.mountPath ++ "/" ++ rest := by
  exact claim_C3.1 handlerX (mkCtx "/api/ghost" []) (by decide)

/-- C4: for every request on which no handler finalizes — either no entry
matches this request, or every handler that matched it invoked the
continuation on it — dispatch returns an unhandled outcome rather than
finalizing; the boundary then produces the default 404 response when the
error state is unset and the 500 response when it is set. Both hypotheses
are per-request: the sequence may contain finalizing routes that this
request does not match, and context-dependent handlers that proceeded only
on this request. -/
theorem claim_C4 :
    (∀ (dl : Option Nat) (es : List Entry) (ctx : Ctx),
      (∀ e ∈ es, entryMatches e ctx = false) →
      dispatch dl es ctx = .unhandled ctx) ∧
    (∀ (dl : Option Nat) (es : List Entry) (ctx : Ctx),
      proceededOn dl es ctx = true → ∃ c, dispatch dl es ctx = .unhandled c) ∧
    (∀ c : Ctx, c.errorState = none →
      boundary (.unhandled c) = (404, "Not Found")) ∧
    (∀ (c : Ctx) (e : Err), c.errorState = some e →
      boundary (.unhandled c) = (500, "Internal Server Error")) := by
  refine ⟨?_, ?_, ?_, ?_⟩
  · intro dl es ctx h
    show (walk dl es 0 ctx).1 = .unhandled ctx
    rw [walk_of_no_match dl es 0 ctx h]
  · intro dl es ctx hp
    exact walk_proceededOn_unhandled dl es 0 ctx hp
  · intro c hc
    simp [boundary, hc]
  · intro c e hc
    simp [boundary, hc]

/-- Witness for C4 at per-request instances: a sequence holding only the
finalizing GET /api/users route is unhandled on a request for /other, which
it does not match; the context-dependent auth middleware proceeded on the
request that carries the valid header, so the logger-then-auth sequence with
no route is unhandled on it; the boundary maps an error-free unhandled
outcome to 404 and an unhandled outcome with an error state to 500. -/
theorem claim_C4_witness :
    dispatch none [usersRouteE] (mkCtx "/other" []) = .unhandled (mkCtx "/other" []) ∧
    (∃ c, dispatch none [loggerE, authE]
        (mkCtx "/api/users" [("authorization", "mysecrettoken")]) = .unhandled c) ∧
    boundary (.unhandled (mkCtx "/" [])) = (404, "Not Found") ∧
    boundary (.unhandled { mkCtx "/" [] with errorState := some doubleDispatchErr })
      = (500, "Internal Server Error") := by
  refine ⟨?_, ?_, ?_, ?_⟩
  · exact claim_C4.1 none [usersRouteE] (mkCtx "/other" [])
      (by intro e he; simp only [List.mem_singleton] at he; subst he; decide)
  · refine claim_C4.2.1 none [loggerE, authE]
      (mkCtx "/api/users" [("authorization", "mysecrettoken")]) ?_
    have s1 : segMatch "/api" "/api/users" = true := by decide
    simp [proceededOn.eq_def, loggerE, authE, recordingEntry, recFn, authFn, mkCtx,
      entryMatches, segMatch, Entry.isErrorHandler, Entry.method, Entry.mountPath,
      s1, List.lookup]
  · exact claim_C4.2.2.1 (mkCtx "/" []) (by simp [mkCtx])
  · exact claim_C4.2.2.2 { mkCtx "/" [] with errorState := some doubleDispatchErr }
      doubleDispatchErr (by simp [mkCtx])

/-- C5: sub-dispatcher composition. When the inner walk of a mounted
sub-dispatcher (run on the residual path, the matched prefix stripped)
returns an unhandled outcome, the outer walk continues with its subsequent
entries rather than finalizing a default response — only the outermost
unhandled outcome reaches the boundary. Concretely, with A mounting B under
/api followed by handlerX at /api/ghost, and B having no entry matching the
residual ghost path, the request for /api/ghost reaches handlerX, which
finalizes 200. -/
theorem claim_C5 :
    (∀ (dl : Option Nat) (p : String) (m : Option Method) (b : Bool)
        (inner rest : List Entry) (i : Nat) (ctx c : Ctx) (t : List Visit),
      entryMatches (.subE p m b inner) ctx = true →
      walk dl inner 0 { ctx with path := residualPath p ctx.path } = (.unhandled c, t) →
      walk dl (.subE p m b inner :: rest) i ctx =
        ((walk dl rest (i + 1) { c with path := ctx.path }).1,
         { pos := i, isErr := b, errAt := ctx.errorState.isSome } ::
           (walk dl rest (i + 1) { c with path := ctx.path }).2)) ∧
    (walk none composeA 0 (mkCtx "/api/ghost" [])).1 =
      .finalized 200 "ghost" { mkCtx "/api/ghost" [] with responseStarted := true } ∧
    ((walk none composeA 0 (mkCtx "/api/ghost" [])).2.map Visit.pos) = [0, 1] := by
  have s1 : segMatch "/api" "/api/ghost" = true := by decide
  have s2 : segMatch "/users" "/ghost" = false := by decide
  have s3 : segMatch "/api/ghost" "/api/ghost" = true := by decide
  have r1 : residualPath "/api" "/api/ghost" = "/ghost" := by decide
  refine ⟨?_, ?_, ?_⟩
  · intro dl p m b inner rest i ctx c t h hw
    exact walk_sub_unhandled dl p m b inner rest i ctx c t h hw
  · simp [walk, composeA, subB, handlerX, mkCtx, entryMatches,
      Entry.isErrorHandler, Entry.method, Entry.mountPath, s1, s2, s3, r1,
      WalkResult.rctx]
  · simp [walk, composeA, subB, handlerX, mkCtx, entryMatches,
      Entry.isErrorHandler, Entry.method, Entry.mountPath, s1, s2, s3, r1]

/-- Witness for C5 at the concrete composition scenario: the sub entry for B
matches the ghost request, the inner walk is unhandled, and the outer walk
therefore continues with handlerX. -/
theorem claim_C5_witness :
    walk none composeA 0 (mkCtx "/api/ghost" []) =
      ((walk none [handlerX] 1 (mkCtx "/api/ghost" [])).1,
       { pos := 0, isErr := false, errAt := false } ::
         (walk none [handlerX] 1 (mkCtx "/api/ghost" [])).2) := by
  have s1 : segMatch "/api" "/api/ghost" = true := by decide
  have s2 : segMatch "/users" "/ghost" = false := by decide
  have r1 : residualPath "/api" "/api/ghost" = "/ghost" := by decide
  have h := claim_C5.1 none "/api" none false
    [.fnE "/users" none false (fun c => (c.attributes, .finalize 200 "users list"))]
    [handlerX] 0 (mkCtx "/api/ghost" []) { mkCtx "/api/ghost" [] with path := "/ghost" } []
    (by simp [entryMatches, Entry.isErrorHandler, Entry.method, Entry.mountPath, mkCtx, s1])
    (by simp [walk, entryMatches, Entry.isErrorHandler, Entry.method, Entry.mountPath,
          mkCtx, s2, r1])
  simpa [composeA, subB, mkCtx] using h

/-- C6: double invocation of the continuation is detected and converted into
a single internal-error state transition: the walk resumes exactly once with
the 500-class double-dispatch error set (diverting the remainder to error
handlers), and no walk ever visits an entry twice — the visit positions of
every walk are strictly increasing. -/
theorem claim_C6 :
    (∀ (dl : Option Nat) (p : String) (m : Option Method)
        (f : Ctx → List (String × String) × Act) (rest : List Entry)
        (i : Nat) (ctx : Ctx),
      entryMatches (.fnE p m false f) ctx = true →
      (f ctx).2 = .doubleProceed →
      ctx.errorState = none →
      walk dl (.fnE p m false f :: rest) i ctx =
        ((walk dl rest (i + 1)
            { ctx with attributes := (f ctx).1,
                       errorState := some doubleDispatchErr }).1,
         { pos := i, isErr := false, errAt := false } ::
           (walk dl rest (i + 1)
             { ctx with attributes := (f ctx).1,
                        errorState := some doubleDispatchErr }).2)) ∧
    (∀ (dl : Option Nat) (es : List Entry) (i : Nat) (ctx : Ctx),
      ((walk dl es i ctx).2.map Visit.pos).Pairwise (· < ·)) := by
  refine ⟨?_, ?_⟩
  · intro dl p m f rest i ctx h hf he
    exact walk_fn_double dl p m false f rest i ctx h hf he
  · intro dl es i ctx
    exact List.Pairwise.sublist (walk_visits_sublist dl es i ctx)
      (List.pairwise_lt_range' i es.length)

/-- Witness for C6: a double-invoking middleware alone in the sequence; the
walk ends unhandled with the double-dispatch error state set, after exactly
one visit. -/
theorem claim_C6_witness :
    walk none [Entry.fnE "" none false (fun c => (c.attributes, Act.doubleProceed))]
        0 (mkCtx "/" []) =
      (.unhandled { mkCtx "/" [] with errorState := some doubleDispatchErr },
       [{ pos := 0, isErr := false, errAt := false }]) := by
  have h := claim_C6.1 none "" none (fun c => (c.attributes, Act.doubleProceed)) [] 0
    (mkCtx "/" [])
    (by simp [entryMatches, Entry.isErrorHandler, Entry.method, Entry.mountPath,
          mkCtx, segMatch])
    rfl rfl
  rw [h]
  simp [walk, mkCtx]

/-- C7: deadline semantics for a handler that neither finalizes nor invokes
the continuation. With a configured deadline the walk resolves by injecting
the synthetic timeout error state and continuing exactly once through the
remaining entries (on which only error handlers can match); with no deadline
the dispatch remains pending; and a walk whose context carries an error
state never resolves into an error-free outcome — it never silently
completes. -/
theorem claim_C7 :
    (∀ (d : Nat) (p : String) (m : Option Method)
        (f : Ctx → List (String × String) × Act) (rest : List Entry)
        (i : Nat) (ctx : Ctx),
      entryMatches (.fnE p m false f) ctx = true →
      (f ctx).2 = .hang →
      ctx.errorState = none →
      walk (some d) (.fnE p m false f :: rest) i ctx =
        ((walk (some d) rest (i + 1)
            { ctx with attributes := (f ctx).1, errorState := some timeoutErr }).1,
         { pos := i, isErr := false, errAt := false } ::
           (walk (some d) rest (i + 1)
             { ctx with attributes := (f ctx).1, errorState := some timeoutErr }).2)) ∧
    (∀ (p : String) (m : Option Method)
        (f : Ctx → List (String × String) × Act) (rest : List Entry)
        (i : Nat) (ctx : Ctx),
      entryMatches (.fnE p m false f) ctx = true →
      (f ctx).2 = .hang →
      walk none (.fnE p m false f :: rest) i ctx =
        (.pending { ctx with attributes := (f ctx).1 },
         [{ pos := i, isErr := false, errAt := ctx.errorState.isSome }])) ∧
    (∀ (dl : Option Nat) (es : List Entry) (i : Nat) (ctx : Ctx),
      ctx.errorState.isSome = true →
      (walk dl es i ctx).1.rctx.errorState.isSome = true) := by
  refine ⟨?_, ?_, walk_errorState_mono⟩
  · intro d p m f rest i ctx h hf he
    exact walk_fn_hang_deadline d p m false f rest i ctx h hf he
  · intro p m f rest i ctx h hf
    exact walk_fn_hang_noDeadline p m false f rest i ctx h hf

/-- Witness for C7: a hanging middleware followed by an error handler. With
a deadline the walk steps into the timeout error state and the error handler
renders it; with no deadline the walk is pending. -/
theorem claim_C7_witness :
    walk (some 5) [Entry.fnE "" none false (fun c => (c.attributes, Act.hang)),
        errHandlerE] 0 (mkCtx "/" []) =
      ((walk (some 5) [errHandlerE] 1
          { mkCtx "/" [] with errorState := some timeoutErr }).1,
       { pos := 0, isErr := false, errAt := false } ::
         (walk (some 5) [errHandlerE] 1
           { mkCtx "/" [] with errorState := some timeoutErr }).2) ∧
    walk none [Entry.fnE "" none false (fun c => (c.attributes, Act.hang))]
        0 (mkCtx "/" []) =
      (.pending (mkCtx "/" []),
       [{ pos := 0, isErr := false, errAt := false }]) := by
  constructor
  · have h := claim_C7.1 5 "" none (fun c => (c.attributes, Act.hang)) [errHandlerE] 0
      (mkCtx "/" [])
      (by simp [entryMatches, Entry.isErrorHandler, Entry.method, Entry.mountPath,
            mkCtx, segMatch])
      rfl rfl
    simpa [mkCtx] using h
  · have h := claim_C7.2.1 "" none (fun c => (c.attributes, Act.hang)) [] 0
      (mkCtx "/" [])
      (by simp [entryMatches, Entry.isErrorHandler, Entry.method, Entry.mountPath,
            mkCtx, segMatch])
      rfl
    simpa [mkCtx] using h

/-- C8: the end-to-end scenario. With mount order logger, jsonBodyParser,
auth under /api, GET route at /api/users: a GET for /api/users carrying the
valid auth header visits all four entries in that order and the route
finalizes 200; the same request without the header is finalized 403 by the
auth entry, and the route entry is never visited. -/
theorem claim_C8 :
    boundary (dispatch none scenarioEntries
        (mkCtx "/api/users" [("authorization", "mysecrettoken")])) = (200, "users") ∧
    ((walk none scenarioEntries
        (0 : Nat) (mkCtx "/api/users" [("authorization", "mysecrettoken")])).2.map Visit.pos)
      = [0, 1, 2, 3] ∧
    boundary (dispatch none scenarioEntries (mkCtx "/api/users" [])) = (403, "Forbidden") ∧
    ((walk none scenarioEntries (0 : Nat) (mkCtx "/api/users" [])).2.map Visit.pos)
      = [0, 1, 2] := by
  have hdis : ∀ (dl : Option Nat) (es : List Entry) (ctx : Ctx),
      dispatch dl es ctx = (walk dl es 0 ctx).1 := fun _ _ _ => rfl
  have hA : walk none scenarioEntries 0 (mkCtx "/api/users" [("authorization", "mysecrettoken")]) =
      (.finalized 200 "users" c8fin,
       [{ pos := 0, isErr := false, errAt := false },
        { pos := 1, isErr := false, errAt := false },
        { pos := 2, isErr := false, errAt := false },
        { pos := 3, isErr := false, errAt := false }]) := by
    show walk none
        (Entry.fnE "" none false (recFn "logger") ::
          [Entry.fnE "" none false (recFn "jsonBodyParser"),
           Entry.fnE "/api" none false authFn,
           Entry.fnE "/api/users" (some Method.GET) false usersFn]) 0
        (mkCtx "/api/users" [("authorization", "mysecrettoken")]) = _
    rw [walk_fn_proceed none "" none false (recFn "logger")
        [Entry.fnE "" none false (recFn "jsonBodyParser"),
         Entry.fnE "/api" none false authFn,
         Entry.fnE "/api/users" (some Method.GET) false usersFn] 0
        (mkCtx "/api/users" [("authorization", "mysecrettoken")]) (by decide) rfl]
    rw [(by decide :
      ({ mkCtx "/api/users" [("authorization", "mysecrettoken")] with
         attributes := (recFn "logger" (mkCtx "/api/users" [("authorization", "mysecrettoken")])).1 } : Ctx) = c8auth1)]
    rw [walk_fn_proceed none "" none false (recFn "jsonBodyParser")
        [Entry.fnE "/api" none false authFn,
         Entry.fnE "/api/users" (some Method.GET) false usersFn] 1 c8auth1
        (by decide) rfl]
    rw [(by decide :
      ({ c8auth1 with attributes := (recFn "jsonBodyParser" c8auth1).1 } : Ctx) = c8auth2)]
    rw [walk_fn_proceed none "/api" none false authFn
        [Entry.fnE "/api/users" (some Method.GET) false usersFn] 2 c8auth2
        (by decide) rfl]
    rw [(by decide :
      ({ c8auth2 with attributes := (authFn c8auth2).1 } : Ctx) = c8auth3)]
    rw [walk_fn_finalize none "/api/users" (some Method.GET) false usersFn [] 3 c8auth3
        200 "users" (by decide) rfl]
    decide
  have hB : walk none scenarioEntries 0 (mkCtx "/api/users" []) =
      (.finalized 403 "Forbidden" c8anonFin,
       [{ pos := 0, isErr := false, errAt := false },
        { pos := 1, isErr := false, errAt := false },
        { pos := 2, isErr := false, errAt := false }]) := by
    show walk none
        (Entry.fnE "" none false (recFn "logger") ::
          [Entry.fnE "" none false (recFn "jsonBodyParser"),
           Entry.fnE "/api" none false authFn,
           Entry.fnE "/api/users" (some Method.GET) false usersFn]) 0
        (mkCtx "/api/users" []) = _
    rw [walk_fn_proceed none "" none false (recFn "logger")
        [Entry.fnE "" none false (recFn "jsonBodyParser"),
         Entry.fnE "/api" none false authFn,
         Entry.fnE "/api/users" (some Method.GET) false usersFn] 0
        (mkCtx "/api/users" []) (by decide) rfl]
    rw [(by decide :
      ({ mkCtx "/api/users" [] with
         attributes := (recFn "logger" (mkCtx "/api/users" [])).1 } : Ctx) = c8anon1)]
    rw [walk_fn_proceed none "" none false (recFn "jsonBodyParser")
        [Entry.fnE "/api" none false authFn,
         Entry.fnE "/api/users" (some Method.GET) false usersFn] 1 c8anon1
        (by decide) rfl]
    rw [(by decide :
      ({ c8anon1 with attributes := (recFn "jsonBodyParser" c8anon1).1 } : Ctx) = c8anon2)]
    rw [walk_fn_finalize none "/api" none false authFn
        [Entry.fnE "/api/users" (some Method.GET) false usersFn] 2 c8anon2
        403 "Forbidden" (by decide) rfl]
    decide
  refine ⟨?_, ?_, ?_, ?_⟩
  · rw [hdis, hA]
    rfl
  · rw [hA]
    rfl
  · rw [hdis, hB]
    rfl
  · rw [hB]
    rfl

/-- C9: in the routing example of src/UNIT2/express-project/routing.js,
every request whose method or path matches none of the three GET routes —
under the default Express matching, which is case-insensitive and tolerates
a trailing slash — is answered by the final catch-all middleware with body
"Page Not Found!" and, because no status is set before sending, HTTP status
200, not 404. Requests the routes do match, including the trailing-slash and
case variants, are served the route body instead. -/
theorem claim_C9 :
    (∀ (m : Method) (url : String),
      ¬(m = .GET ∧ (expressRouteMatch "/" url = true ∨
          expressRouteMatch "/about" url = true ∨
          expressRouteMatch "/home" url = true)) →
      routingRespond m url = (200, "Page Not Found!")) ∧
    routingRespond .GET "/about/" = (200, "Your are on about") ∧
    routingRespond .GET "/ABOUT" = (200, "Your are on about") ∧
    routingRespond .POST "/about" = (200, "Page Not Found!") := by
  refine ⟨?_, by decide, by decide, by decide⟩
  intro m url h
  simp only [routingRespond]
  split_ifs with h1 h2 h3
  · simp only [Bool.and_eq_true, beq_iff_eq] at h1
    exact absurd ⟨h1.1, Or.inl h1.2⟩ h
  · simp only [Bool.and_eq_true, beq_iff_eq] at h2
    exact absurd ⟨h2.1, Or.inr (Or.inl h2.2)⟩ h
  · simp only [Bool.and_eq_true, beq_iff_eq] at h3
    exact absurd ⟨h3.1, Or.inr (Or.inr h3.2)⟩ h
  · rfl

/-- Witness for C9: a POST request for an unknown path matches no route and
is answered 200 with the not-found body by the catch-all. -/
theorem claim_C9_witness :
    routingRespond .POST "/missing" = (200, "Page Not Found!") :=
  claim_C9.1 .POST "/missing" (by decide)

/-- C10: the plain-http routing example of src/unnamed/part_006 dispatches
on exact string equality of req.url: exactly the strings /home and /about
receive a 200 response, and every other url — including the segment-extended
ones a prefix rule would match — receives 404 with the not-found body. -/
theorem claim_C10 :
    (∀ url : String,
      (plainHttpRespond url).1 = 200 ↔ (url = "/home" ∨ url = "/about")) ∧
    plainHttpRespond "/home/" = (404, "Page not found.\n") ∧
    plainHttpRespond "/home/x" = (404, "Page not found.\n") := by
  refine ⟨?_, by decide, by decide⟩
  intro url
  simp only [plainHttpRespond]
  split_ifs with h1 h2
  · simp only [beq_iff_eq] at h1
    simp [h1]
  · simp only [beq_iff_eq] at h2
    simp [h2]
  · simp only [beq_iff_eq] at h1 h2
    simp [h1, h2]

end MwDispatch
